import Mathlib

/-!
# Unsubscribe handler

A shallow embedding of `lambdas/api/unsubscribe/handler/handler.go`:
the request data with its `Validate` method and the `Handler` function.

The handler talks to four collaborators whose code lives outside the handler
file (the template package, the request decoder, the standard mailbox parser
and the subscription store).  They are gathered in the structure `Env` and every
theorem quantifies over all of them.
-/

namespace handler

/-! ## Data model -/

/-- Go `error` values.  `New msg` is `errors.New(msg)`; `Wrap msg cause` is
`fmt.Errorf(msg + "%w", cause)`, an error that wraps `cause`. A nil `error` is
`none : Option Error`. -/
inductive Error where
  | New (msg : String)
  | Wrap (msg : String) (cause : Error)
deriving DecidableEq, Repr

/-- The method `Error()` of a Go error, named `message` here: the text of an
error. A wrapping error prints its own text followed by the text of its
cause. -/
def Error.message : Error → String
  | .New msg => msg
  | .Wrap msg cause => msg ++ cause.message

/-- The `Unwrap()` method: the wrapped cause, if any. -/
def Error.Unwrap : Error → Option Error
  | .New _ => none
  | .Wrap _ cause => some cause

/-- The result of `mail.ParseAddress`: `mail.Address`, a display name (`Name`)
and an address (the Go field `Address`, named `Addr` here). -/
structure Address where
  Name : String
  Addr : String
deriving DecidableEq, Repr

/-- The struct `RequestData` (handler.go, lines 41-44). -/
structure RequestData where
  ID : String
  EmailAddress : String
deriving DecidableEq, Repr

/-- `http.StatusOK`. -/
def StatusOK : Nat := 200

/-- `http.StatusBadRequest`. -/
def StatusBadRequest : Nat := 400

/-- `http.StatusInternalServerError`. -/
def StatusInternalServerError : Nat := 500

/-- The structured response of the handler: a numeric status code, an optional
error payload and an optional template body. -/
structure Response (Template : Type) where
  statusCode : Nat
  err : Option Error
  data : Option Template
deriving DecidableEq, Repr

/-- The collaborators of the handler.

* `NewTemplateFromFile path` is `tmpl.NewTemplateFromFile(templates, path, nil)`:
  the embedded file system and the nil context data are fixed by the call site.
* `Parse` is the decoding step of `xlambda.ParseAndValidate`: it fills a
  `RequestData` from the inbound request or fails.
* `ParseAddress` is `mail.ParseAddress`.
* `DeleteSubscription id emailAddress` is `db.DeleteSubscription(ctx, id, emailAddress)`;
  `none` is a nil error. -/
structure Env (Request Template : Type) where
  NewTemplateFromFile : String → Except Error Template
  Parse : Request → Except Error RequestData
  ParseAddress : String → Except Error Address
  DeleteSubscription : String → String → Option Error

/-- The file name passed to `tmpl.NewTemplateFromFile` on line 24. -/
def templateFile : String := "templates/unsubscribe-successful.tmpl.html"

/-- The calls made to the subscription store, oldest first: the pair of
arguments `(id, emailAddress)` of every `DeleteSubscription` call. -/
abbrev Trace := List (String × String)

/-! ## Operations -/

/-- `RequestData.Validate` (handler.go, lines 46-56). `len(r.ID)` is the length
of the string in bytes. -/
def RequestData.Validate (ParseAddress : String → Except Error Address)
    (r : RequestData) : Option Error :=
  if r.ID.utf8ByteSize == 0 then
    some (Error.New "id cannot be empty")
  else
    match ParseAddress r.EmailAddress with
    | .error err => some (Error.Wrap "failed to validate EmailAddress: " err)
    | .ok _ => none

/-- Modelled from the spec: `xlambda.ParseAndValidate` belongs to a library that
is not part of the handler file. Following step 2 of the handler contract
("parse and validate the request body"), it decodes the request into the data
(`Env.Parse`) and then runs the `Validate` method of the data; the first
failure is returned as it is. -/
def ParseAndValidate {Request Template : Type} (env : Env Request Template)
    (request : Request) : Except Error RequestData :=
  match env.Parse request with
  | .error err => .error err
  | .ok data =>
    match data.Validate env.ParseAddress with
    | some err => .error err
    | none => .ok data

/-- Modelled from the spec: `xlambda.ProxyResponseJSON` belongs to a library
that is not part of the handler file. Following the description of the outbound
response (a status code, an optional error description and an optional rendered
body), it records its three arguments in the response and returns that response
together with a nil error. -/
def ProxyResponseJSON {Template : Type} (statusCode : Nat) (err : Option Error)
    (data : Option Template) : Response Template × Option Error :=
  (⟨statusCode, err, data⟩, none)

/-- The store call of line 34, with its effect on the trace made explicit: the
call is appended to the trace and the store's answer is returned. -/
def DeleteSubscription {Request Template : Type} (env : Env Request Template)
    (id emailAddress : String) (calls : Trace) : Option Error × Trace :=
  (env.DeleteSubscription id emailAddress, calls ++ [(id, emailAddress)])

/-- `Handler` (handler.go, lines 23-39). The result is the pair returned by the
Go function (response and error) together with the trace of store calls, which
starts as `calls`. -/
def Handler {Request Template : Type} (env : Env Request Template)
    (request : Request) (calls : Trace) :
    (Response Template × Option Error) × Trace :=
  match env.NewTemplateFromFile templateFile with
  | .error err =>
    (ProxyResponseJSON StatusInternalServerError
      (some (Error.Wrap "failed to create template from file: " err)) none, calls)
  | .ok template =>
    match ParseAndValidate env request with
    | .error err => (ProxyResponseJSON StatusBadRequest (some err) none, calls)
    | .ok data =>
      match DeleteSubscription env data.ID data.EmailAddress calls with
      | (some err, calls1) =>
        (ProxyResponseJSON StatusInternalServerError
          (some (Error.Wrap "failed to delete subscription: " err)) (some template), calls1)
      | (none, calls1) =>
        (ProxyResponseJSON StatusOK none (some template), calls1)

/-! ## Concrete collaborators

A small environment on which the definitions can be evaluated: requests are
already decoded (`none` stands for a payload that cannot be decoded), templates
are strings, and the mailbox parser accepts the strings that contain `@`. -/

/-- A stand-in for the mailbox parser. -/
def sampleParseAddress (s : String) : Except Error Address :=
  if '@' ∈ s.data then .ok ⟨"", s⟩ else .error (Error.New "mail: missing @ in address")

/-- A concrete environment; `tmplOk` tells whether the template loads and
`delOk` whether the store deletion succeeds. -/
def sampleEnv (tmplOk delOk : Bool) : Env (Option RequestData) String where
  NewTemplateFromFile := fun path =>
    if tmplOk then .ok ("<rendered " ++ path ++ ">") else .error (Error.New "open: file does not exist")
  Parse := fun request =>
    match request with
    | some data => .ok data
    | none => .error (Error.New "unexpected end of JSON input")
  ParseAddress := sampleParseAddress
  DeleteSubscription := fun _ _ =>
    if delOk then none else some (Error.New "store unavailable")

/-- The rendered template of the concrete environment. -/
def sampleTemplate : String := "<rendered templates/unsubscribe-successful.tmpl.html>"

/-! ## Helper lemmas -/

/-- A string has byte length zero exactly when it is the empty string. -/
theorem utf8ByteSize_eq_zero_iff (s : String) : s.utf8ByteSize = 0 ↔ s = "" := by
  cases s with
  | mk l =>
    cases l with
    | nil => simp [String.utf8ByteSize, String.utf8ByteSize.go]
    | cons c cs =>
      have hc : 0 < c.utf8Size := Char.utf8Size_pos c
      constructor
      · intro h
        simp [String.utf8ByteSize, String.utf8ByteSize.go] at h
        omega
      · intro h
        have := congrArg String.data h
        simp at this

/-- The first branch of `Validate`: an empty identifier. -/
theorem Validate_of_empty (pa : String → Except Error Address) (r : RequestData)
    (h : r.ID = "") : r.Validate pa = some (Error.New "id cannot be empty") := by
  have h0 : r.ID.utf8ByteSize = 0 := (utf8ByteSize_eq_zero_iff r.ID).2 h
  simp [RequestData.Validate, h0]

/-- Past the first branch, `Validate` is decided by the mailbox parser. -/
theorem Validate_of_nonempty (pa : String → Except Error Address) (r : RequestData)
    (h : r.ID ≠ "") :
    r.Validate pa =
      match pa r.EmailAddress with
      | .error err => some (Error.Wrap "failed to validate EmailAddress: " err)
      | .ok _ => none := by
  have h0 : r.ID.utf8ByteSize ≠ 0 := fun hz => h ((utf8ByteSize_eq_zero_iff r.ID).1 hz)
  simp [RequestData.Validate, h0]

/-- The handler when the template does not load. -/
theorem Handler_of_template_error {Request Template : Type} (env : Env Request Template)
    (request : Request) (calls : Trace) (err : Error)
    (ht : env.NewTemplateFromFile templateFile = .error err) :
    Handler env request calls =
      ((⟨500, some (Error.Wrap "failed to create template from file: " err), none⟩, none),
        calls) := by
  simp [Handler, ht, ProxyResponseJSON, StatusInternalServerError]

/-- The handler when the template loads and the request is rejected. -/
theorem Handler_of_invalid {Request Template : Type} (env : Env Request Template)
    (request : Request) (calls : Trace) (template : Template) (err : Error)
    (ht : env.NewTemplateFromFile templateFile = .ok template)
    (hv : ParseAndValidate env request = .error err) :
    Handler env request calls = ((⟨400, some err, none⟩, none), calls) := by
  simp [Handler, ht, hv, ProxyResponseJSON, StatusBadRequest]

/-- The handler when the template loads, the request is accepted and the store
reports a failure. -/
theorem Handler_of_delete_error {Request Template : Type} (env : Env Request Template)
    (request : Request) (calls : Trace) (template : Template) (data : RequestData)
    (err : Error)
    (ht : env.NewTemplateFromFile templateFile = .ok template)
    (hv : ParseAndValidate env request = .ok data)
    (hd : env.DeleteSubscription data.ID data.EmailAddress = some err) :
    Handler env request calls =
      ((⟨500, some (Error.Wrap "failed to delete subscription: " err), some template⟩, none),
        calls ++ [(data.ID, data.EmailAddress)]) := by
  simp [Handler, ht, hv, hd, DeleteSubscription, ProxyResponseJSON,
    StatusInternalServerError]

/-- The handler when every step succeeds. -/
theorem Handler_of_delete_ok {Request Template : Type} (env : Env Request Template)
    (request : Request) (calls : Trace) (template : Template) (data : RequestData)
    (ht : env.NewTemplateFromFile templateFile = .ok template)
    (hv : ParseAndValidate env request = .ok data)
    (hd : env.DeleteSubscription data.ID data.EmailAddress = none) :
    Handler env request calls =
      ((⟨200, none, some template⟩, none), calls ++ [(data.ID, data.EmailAddress)]) := by
  simp [Handler, ht, hv, hd, DeleteSubscription, ProxyResponseJSON, StatusOK]

/-- A decoded request whose data pass `Validate` is accepted unchanged. -/
theorem ParseAndValidate_of_valid {Request Template : Type} (env : Env Request Template)
    (request : Request) (data : RequestData)
    (hp : env.Parse request = .ok data)
    (hv : data.Validate env.ParseAddress = none) :
    ParseAndValidate env request = .ok data := by
  simp [ParseAndValidate, hp, hv]

/-- A decoded request whose data fail `Validate` is rejected with that error. -/
theorem ParseAndValidate_of_invalid {Request Template : Type} (env : Env Request Template)
    (request : Request) (data : RequestData) (err : Error)
    (hp : env.Parse request = .ok data)
    (hv : data.Validate env.ParseAddress = some err) :
    ParseAndValidate env request = .error err := by
  simp [ParseAndValidate, hp, hv]

/-- An accepted request was decoded and passed `Validate`. -/
theorem ParseAndValidate_ok_inv {Request Template : Type} (env : Env Request Template)
    (request : Request) (data : RequestData)
    (h : ParseAndValidate env request = .ok data) :
    env.Parse request = .ok data ∧ data.Validate env.ParseAddress = none := by
  unfold ParseAndValidate at h
  cases hp : env.Parse request with
  | error e => simp [hp] at h
  | ok d =>
    cases hv : d.Validate env.ParseAddress with
    | some e => simp [hp, hv] at h
    | none =>
      simp [hp, hv] at h
      subst h
      exact ⟨rfl, hv⟩

/-- The four ways through the handler: the template does not load; the request
is rejected; the store fails; everything succeeds. -/
theorem Handler_cases {Request Template : Type} (env : Env Request Template)
    (request : Request) (calls : Trace) :
    (∃ err, env.NewTemplateFromFile templateFile = .error err ∧
      Handler env request calls =
        ((⟨500, some (Error.Wrap "failed to create template from file: " err), none⟩, none),
          calls)) ∨
    (∃ template err, env.NewTemplateFromFile templateFile = .ok template ∧
      ParseAndValidate env request = .error err ∧
      Handler env request calls = ((⟨400, some err, none⟩, none), calls)) ∨
    (∃ template data err, env.NewTemplateFromFile templateFile = .ok template ∧
      ParseAndValidate env request = .ok data ∧
      env.DeleteSubscription data.ID data.EmailAddress = some err ∧
      Handler env request calls =
        ((⟨500, some (Error.Wrap "failed to delete subscription: " err), some template⟩,
          none), calls ++ [(data.ID, data.EmailAddress)])) ∨
    (∃ template data, env.NewTemplateFromFile templateFile = .ok template ∧
      ParseAndValidate env request = .ok data ∧
      env.DeleteSubscription data.ID data.EmailAddress = none ∧
      Handler env request calls =
        ((⟨200, none, some template⟩, none), calls ++ [(data.ID, data.EmailAddress)])) := by
  cases ht : env.NewTemplateFromFile templateFile with
  | error e =>
    exact Or.inl ⟨e, rfl, Handler_of_template_error env request calls e ht⟩
  | ok t =>
    cases hv : ParseAndValidate env request with
    | error e =>
      exact Or.inr (Or.inl ⟨t, e, rfl, rfl, Handler_of_invalid env request calls t e ht hv⟩)
    | ok d =>
      cases hd : env.DeleteSubscription d.ID d.EmailAddress with
      | some e =>
        exact Or.inr (Or.inr (Or.inl
          ⟨t, d, e, rfl, rfl, hd, Handler_of_delete_error env request calls t d e ht hv hd⟩))
      | none =>
        exact Or.inr (Or.inr (Or.inr
          ⟨t, d, rfl, rfl, hd, Handler_of_delete_ok env request calls t d ht hv hd⟩))

/-! ## The validator -/

/-- C6: `Validate` returns an error exactly when the identifier is empty or the
email address is rejected by the mailbox parser, and returns nil exactly when
the identifier is non-empty and the email address parses. -/
theorem Validate_error_iff (pa : String → Except Error Address) (r : RequestData) :
    ((∃ err, r.Validate pa = some err) ↔
        (r.ID = "" ∨ ∃ err, pa r.EmailAddress = .error err)) ∧
    (r.Validate pa = none ↔ (r.ID ≠ "" ∧ ∃ a, pa r.EmailAddress = .ok a)) := by
  by_cases hid : r.ID = ""
  · have hv := Validate_of_empty pa r hid
    simp [hv, hid]
  · have hv := Validate_of_nonempty pa r hid
    cases hp : pa r.EmailAddress with
    | error e => simp [hv, hp, hid]
    | ok a => simp [hv, hp, hid]

/-- C7: when the identifier is empty, `Validate` fails with the error
`errors.New("id cannot be empty")`, whose message is exactly "id cannot be
empty", whatever the email address and whatever the mailbox parser says about
it. -/
theorem Validate_empty_id (pa : String → Except Error Address) (r : RequestData)
    (h : r.ID = "") :
    r.Validate pa = some (Error.New "id cannot be empty") ∧
    ∃ err, r.Validate pa = some err ∧ err.message = "id cannot be empty" ∧
      err.Unwrap = none := by
  have hv := Validate_of_empty pa r h
  exact ⟨hv, _, hv, rfl, rfl⟩

/-- The witness of C7: an empty identifier next to an email address that the
parser rejects; the identifier error is the one reported. -/
theorem Validate_empty_id_witness :
    sampleParseAddress "not-an-address" = .error (Error.New "mail: missing @ in address") ∧
    (RequestData.Validate sampleParseAddress ⟨"", "not-an-address"⟩ =
        some (Error.New "id cannot be empty") ∧
      ∃ err, RequestData.Validate sampleParseAddress ⟨"", "not-an-address"⟩ = some err ∧
        err.message = "id cannot be empty" ∧ err.Unwrap = none) :=
  ⟨rfl, Validate_empty_id sampleParseAddress ⟨"", "not-an-address"⟩ rfl⟩

/-! ## The handler, path by path -/

/-- C1: for a request that decodes to data with a non-empty identifier and an
email address accepted by the mailbox parser, if the template loads and the
store deletion returns no error, the handler returns status 200, no error
payload, the loaded template as body, and a nil error. -/
theorem Handler_success {Request Template : Type} (env : Env Request Template)
    (request : Request) (calls : Trace) (data : RequestData) (template : Template)
    (a : Address)
    (hparse : env.Parse request = .ok data)
    (hid : data.ID ≠ "")
    (hmail : env.ParseAddress data.EmailAddress = .ok a)
    (htmpl : env.NewTemplateFromFile templateFile = .ok template)
    (hdel : env.DeleteSubscription data.ID data.EmailAddress = none) :
    (Handler env request calls).1 = (⟨200, none, some template⟩, none) := by
  have hv : data.Validate env.ParseAddress = none := by
    rw [Validate_of_nonempty _ _ hid, hmail]
  have hpv := ParseAndValidate_of_valid env request data hparse hv
  rw [Handler_of_delete_ok env request calls template data htmpl hpv hdel]

/-- The witness of C1: the request `sub-123`, `user@example.com` in an
environment where the template loads and the deletion succeeds. -/
theorem Handler_success_witness :
    (Handler (sampleEnv true true) (some ⟨"sub-123", "user@example.com"⟩) []).1 =
      (⟨200, none, some sampleTemplate⟩, none) :=
  Handler_success (sampleEnv true true) (some ⟨"sub-123", "user@example.com"⟩) []
    ⟨"sub-123", "user@example.com"⟩ sampleTemplate ⟨"", "user@example.com"⟩
    rfl (by decide) rfl rfl rfl

/-- C2: for a request that decodes to data with a non-empty identifier and an
email address accepted by the mailbox parser, if the template loads and the
store deletion returns an error, the handler returns status 500 with an error
payload (the store error, wrapped) and with the loaded template as body. -/
theorem Handler_delete_failure {Request Template : Type} (env : Env Request Template)
    (request : Request) (calls : Trace) (data : RequestData) (template : Template)
    (a : Address) (err : Error)
    (hparse : env.Parse request = .ok data)
    (hid : data.ID ≠ "")
    (hmail : env.ParseAddress data.EmailAddress = .ok a)
    (htmpl : env.NewTemplateFromFile templateFile = .ok template)
    (hdel : env.DeleteSubscription data.ID data.EmailAddress = some err) :
    (Handler env request calls).1 =
      (⟨500, some (Error.Wrap "failed to delete subscription: " err), some template⟩,
        none) := by
  have hv : data.Validate env.ParseAddress = none := by
    rw [Validate_of_nonempty _ _ hid, hmail]
  have hpv := ParseAndValidate_of_valid env request data hparse hv
  rw [Handler_of_delete_error env request calls template data err htmpl hpv hdel]

/-- The witness of C2: the same request in an environment whose store fails. -/
theorem Handler_delete_failure_witness :
    (Handler (sampleEnv true false) (some ⟨"sub-123", "user@example.com"⟩) []).1 =
      (⟨500, some (Error.Wrap "failed to delete subscription: "
          (Error.New "store unavailable")), some sampleTemplate⟩, none) :=
  Handler_delete_failure (sampleEnv true false) (some ⟨"sub-123", "user@example.com"⟩) []
    ⟨"sub-123", "user@example.com"⟩ sampleTemplate ⟨"", "user@example.com"⟩
    (Error.New "store unavailable") rfl (by decide) rfl rfl rfl

/-- The counterexample to C3 as stated: the identifier is empty, the template
does not load, and the handler answers 500, not 400. -/
theorem Handler_empty_id_template_failure :
    (sampleEnv false true).Parse (some ⟨"", "user@example.com"⟩) =
      .ok ⟨"", "user@example.com"⟩ ∧
    (Handler (sampleEnv false true) (some ⟨"", "user@example.com"⟩) []).1.1.statusCode
      = 500 ∧
    ¬ ((Handler (sampleEnv false true) (some ⟨"", "user@example.com"⟩) []).1.1.statusCode
        = 400 ∧
      (Handler (sampleEnv false true) (some ⟨"", "user@example.com"⟩) []).1.1.data = none) :=
  ⟨rfl, by decide, by decide⟩

/-- C3, amended: for a request that decodes to data with an empty identifier, if
the template loads, the handler returns status 400 and no template body. -/
theorem Handler_empty_id {Request Template : Type} (env : Env Request Template)
    (request : Request) (calls : Trace) (data : RequestData) (template : Template)
    (htmpl : env.NewTemplateFromFile templateFile = .ok template)
    (hparse : env.Parse request = .ok data)
    (hid : data.ID = "") :
    (Handler env request calls).1.1.statusCode = 400 ∧
    (Handler env request calls).1.1.data = none := by
  have hv := Validate_of_empty env.ParseAddress data hid
  have hpv := ParseAndValidate_of_invalid env request data _ hparse hv
  rw [Handler_of_invalid env request calls template _ htmpl hpv]
  exact ⟨rfl, rfl⟩

/-- The witness of amended C3: an empty identifier, the template loads. -/
theorem Handler_empty_id_witness :
    (Handler (sampleEnv true true) (some ⟨"", "user@example.com"⟩) []).1.1.statusCode
      = 400 ∧
    (Handler (sampleEnv true true) (some ⟨"", "user@example.com"⟩) []).1.1.data = none :=
  Handler_empty_id (sampleEnv true true) (some ⟨"", "user@example.com"⟩) []
    ⟨"", "user@example.com"⟩ sampleTemplate rfl rfl rfl

/-- The counterexample to C4 as stated: the email address is rejected by the
mailbox parser, the template does not load, and the handler answers 500, not
400. -/
theorem Handler_bad_email_template_failure :
    (sampleEnv false true).Parse (some ⟨"sub-123", "not-an-address"⟩) =
      .ok ⟨"sub-123", "not-an-address"⟩ ∧
    (sampleEnv false true).ParseAddress "not-an-address" =
      .error (Error.New "mail: missing @ in address") ∧
    (Handler (sampleEnv false true) (some ⟨"sub-123", "not-an-address"⟩) []).1.1.statusCode
      = 500 ∧
    (Handler (sampleEnv false true) (some ⟨"sub-123", "not-an-address"⟩) []).1.1.statusCode
      ≠ 400 :=
  ⟨rfl, rfl, by decide, by decide⟩

/-- C4, amended: for a request that decodes to data whose email address is
rejected by the mailbox parser, if the template loads, the handler returns
status 400, the error of `Validate` as error payload, and no template body. -/
theorem Handler_bad_email {Request Template : Type} (env : Env Request Template)
    (request : Request) (calls : Trace) (data : RequestData) (template : Template)
    (perr : Error)
    (htmpl : env.NewTemplateFromFile templateFile = .ok template)
    (hparse : env.Parse request = .ok data)
    (hmail : env.ParseAddress data.EmailAddress = .error perr) :
    (Handler env request calls).1.1.statusCode = 400 ∧
    (∃ verr, data.Validate env.ParseAddress = some verr ∧
      (Handler env request calls).1.1.err = some verr) ∧
    (Handler env request calls).1.1.data = none := by
  have hex : ∃ verr, data.Validate env.ParseAddress = some verr := by
    by_cases hid : data.ID = ""
    · exact ⟨_, Validate_of_empty env.ParseAddress data hid⟩
    · refine ⟨Error.Wrap "failed to validate EmailAddress: " perr, ?_⟩
      rw [Validate_of_nonempty _ _ hid, hmail]
  obtain ⟨verr, hv⟩ := hex
  have hpv := ParseAndValidate_of_invalid env request data verr hparse hv
  rw [Handler_of_invalid env request calls template verr htmpl hpv]
  exact ⟨rfl, ⟨verr, hv, rfl⟩, rfl⟩

/-- The witness of amended C4: a rejected email address, the template loads. -/
theorem Handler_bad_email_witness :
    (Handler (sampleEnv true true) (some ⟨"sub-123", "not-an-address"⟩) []).1.1.statusCode
      = 400 ∧
    (∃ verr, RequestData.Validate (sampleEnv true true).ParseAddress
        ⟨"sub-123", "not-an-address"⟩ = some verr ∧
      (Handler (sampleEnv true true) (some ⟨"sub-123", "not-an-address"⟩) []).1.1.err
        = some verr) ∧
    (Handler (sampleEnv true true) (some ⟨"sub-123", "not-an-address"⟩) []).1.1.data
      = none :=
  Handler_bad_email (sampleEnv true true) (some ⟨"sub-123", "not-an-address"⟩) []
    ⟨"sub-123", "not-an-address"⟩ sampleTemplate (Error.New "mail: missing @ in address")
    rfl rfl rfl

/-- C5: if the template does not load, then for every request the handler
returns status 500, an error payload (the template error, wrapped), no template
body, and a nil error. -/
theorem Handler_template_failure {Request Template : Type} (env : Env Request Template)
    (request : Request) (calls : Trace) (err : Error)
    (htmpl : env.NewTemplateFromFile templateFile = .error err) :
    (Handler env request calls).1 =
      (⟨500, some (Error.Wrap "failed to create template from file: " err), none⟩,
        none) := by
  rw [Handler_of_template_error env request calls err htmpl]

/-- The witness of C5: a request with valid fields, the template does not load. -/
theorem Handler_template_failure_witness :
    (Handler (sampleEnv false true) (some ⟨"sub-123", "user@example.com"⟩) []).1 =
      (⟨500, some (Error.Wrap "failed to create template from file: "
          (Error.New "open: file does not exist")), none⟩, none) :=
  Handler_template_failure (sampleEnv false true) (some ⟨"sub-123", "user@example.com"⟩) []
    (Error.New "open: file does not exist") rfl

/-! ## The handler, all paths at once -/

/-- C8: on every path the handler returns a response whose status code is 200,
400 or 500, together with a nil error; every failure of a collaborator ends up
in the error payload of the response: the template error (wrapped) with status
500, the request error with status 400, the store error (wrapped) with status
500; and only the success path has no error payload. -/
theorem Handler_structured_response {Request Template : Type}
    (env : Env Request Template) (request : Request) (calls : Trace) :
    ((Handler env request calls).1.1.statusCode = 200 ∨
      (Handler env request calls).1.1.statusCode = 400 ∨
      (Handler env request calls).1.1.statusCode = 500) ∧
    (Handler env request calls).1.2 = none ∧
    ((∃ err, env.NewTemplateFromFile templateFile = .error err ∧
        (Handler env request calls).1.1 =
          ⟨500, some (Error.Wrap "failed to create template from file: " err), none⟩) ∨
      (∃ template err, env.NewTemplateFromFile templateFile = .ok template ∧
        ParseAndValidate env request = .error err ∧
        (Handler env request calls).1.1 = ⟨400, some err, none⟩) ∨
      (∃ template data err, env.NewTemplateFromFile templateFile = .ok template ∧
        ParseAndValidate env request = .ok data ∧
        env.DeleteSubscription data.ID data.EmailAddress = some err ∧
        (Handler env request calls).1.1 =
          ⟨500, some (Error.Wrap "failed to delete subscription: " err), some template⟩) ∨
      (∃ template data, env.NewTemplateFromFile templateFile = .ok template ∧
        ParseAndValidate env request = .ok data ∧
        env.DeleteSubscription data.ID data.EmailAddress = none ∧
        (Handler env request calls).1.1 = ⟨200, none, some template⟩)) := by
  rcases Handler_cases env request calls with
    ⟨e, ht, h⟩ | ⟨t, e, ht, hv, h⟩ | ⟨t, d, e, ht, hv, hd, h⟩ | ⟨t, d, ht, hv, hd, h⟩
  · rw [h]
    exact ⟨Or.inr (Or.inr rfl), rfl, Or.inl ⟨e, ht, rfl⟩⟩
  · rw [h]
    exact ⟨Or.inr (Or.inl rfl), rfl, Or.inr (Or.inl ⟨t, e, ht, hv, rfl⟩)⟩
  · rw [h]
    exact ⟨Or.inr (Or.inr rfl), rfl, Or.inr (Or.inr (Or.inl ⟨t, d, e, ht, hv, hd, rfl⟩))⟩
  · rw [h]
    exact ⟨Or.inl rfl, rfl, Or.inr (Or.inr (Or.inr ⟨t, d, ht, hv, hd, rfl⟩))⟩

/-- C9: the store is called at most once per invocation (the trace grows by at
most one call); it is not called when the template does not load nor when the
request is rejected; and when it is called, the template has loaded, the
request has been decoded and has passed `Validate`, and the arguments of the
call are the identifier and the email address of the decoded request. -/
theorem Handler_store_calls {Request Template : Type}
    (env : Env Request Template) (request : Request) (calls : Trace) :
    (∃ made, (Handler env request calls).2 = calls ++ made ∧ made.length ≤ 1) ∧
    (∀ err, env.NewTemplateFromFile templateFile = .error err →
      (Handler env request calls).2 = calls) ∧
    (∀ err, ParseAndValidate env request = .error err →
      (Handler env request calls).2 = calls) ∧
    ((Handler env request calls).2 = calls ∨
      ∃ template data, env.NewTemplateFromFile templateFile = .ok template ∧
        env.Parse request = .ok data ∧ data.Validate env.ParseAddress = none ∧
        (Handler env request calls).2 = calls ++ [(data.ID, data.EmailAddress)]) := by
  rcases Handler_cases env request calls with
    ⟨e, ht, h⟩ | ⟨t, e, ht, hv, h⟩ | ⟨t, d, e, ht, hv, hd, h⟩ | ⟨t, d, ht, hv, hd, h⟩
  · rw [h]
    exact ⟨⟨[], by simp, by simp⟩, fun _ _ => rfl, fun _ _ => rfl, Or.inl rfl⟩
  · rw [h]
    exact ⟨⟨[], by simp, by simp⟩, fun _ _ => rfl, fun _ _ => rfl, Or.inl rfl⟩
  · rw [h]
    obtain ⟨hp, hval⟩ := ParseAndValidate_ok_inv env request d hv
    refine ⟨⟨[(d.ID, d.EmailAddress)], rfl, by simp⟩, ?_, ?_, Or.inr ⟨t, d, ht, hp, hval, rfl⟩⟩
    · intro err herr
      rw [ht] at herr
      cases herr
    · intro err herr
      rw [hv] at herr
      cases herr
  · rw [h]
    obtain ⟨hp, hval⟩ := ParseAndValidate_ok_inv env request d hv
    refine ⟨⟨[(d.ID, d.EmailAddress)], rfl, by simp⟩, ?_, ?_, Or.inr ⟨t, d, ht, hp, hval, rfl⟩⟩
    · intro err herr
      rw [ht] at herr
      cases herr
    · intro err herr
      rw [hv] at herr
      cases herr

/-- C10: the handler returns status 200 exactly when the template loaded, the
request was accepted, and the store was called with the request's identifier and
email address and returned no error; and the response carries a template body
exactly when the template loaded and the request was accepted, the body then
being the loaded template. -/
theorem Handler_ok_iff {Request Template : Type}
    (env : Env Request Template) (request : Request) (calls : Trace) :
    ((Handler env request calls).1.1.statusCode = 200 ↔
      ∃ template data, env.NewTemplateFromFile templateFile = .ok template ∧
        ParseAndValidate env request = .ok data ∧
        env.DeleteSubscription data.ID data.EmailAddress = none ∧
        (Handler env request calls).2 = calls ++ [(data.ID, data.EmailAddress)]) ∧
    ((∃ body, (Handler env request calls).1.1.data = some body) ↔
      ∃ template data, env.NewTemplateFromFile templateFile = .ok template ∧
        ParseAndValidate env request = .ok data) ∧
    (∀ body, (Handler env request calls).1.1.data = some body →
      env.NewTemplateFromFile templateFile = .ok body) := by
  rcases Handler_cases env request calls with
    ⟨e, ht, h⟩ | ⟨t, e, ht, hv, h⟩ | ⟨t, d, e, ht, hv, hd, h⟩ | ⟨t, d, ht, hv, hd, h⟩
  · rw [h]
    simp [ht]
  · rw [h]
    simp [ht, hv]
  · rw [h]
    simp [ht, hv, hd]
  · rw [h]
    simp [ht, hv, hd]

end handler
